import Mathlib

/-!
Verification of the token issuance / verification subsystem of the
`proyecto-backend_node-plantilla` repository.

The embedding covers:
* `Payload.validatePayload` and `Payload.createToken` (helpers/payload.ts,
  current documented version),
* `CheckHeaders.validateJWT` (middlewares/headers.ts, current documented
  version),
* models of the external collaborators the two classes call into:
  the `cryptr` symmetric cipher, the `jsonwebtoken` sign/verify pair and the
  JavaScript number coercion used on the decrypted identifier.  Those three
  live outside the repository, so they are modelled from the specification
  (each such definition carries a doc comment saying so).
-/

/-- A JavaScript value as it can appear in the `user_id` / `client_id`
fields of the data object passed to `createToken`: a number, a string, or
`undefined` (the source checks `=== undefined` and `=== ''` explicitly). -/
inductive JSVal where
  | num (n : Int)
  | str (s : String)
  | undefinedV
deriving DecidableEq

/-- Result of JavaScript numeric coercion: either a finite number (the ids in
this code base are integral) or `NaN`. -/
inductive JSNum where
  | num (n : Int)
  | nan
deriving DecidableEq

/-- Digit-string parser used by the JS-coercion model: `some n` exactly when
the list is a non-empty run of decimal digits. -/
def parseNatDigits (l : List Char) : Option Nat :=
  if l ≠ [] ∧ l.all (fun c => c.isDigit) then
    some (l.foldl (fun a c => a * 10 + (c.toNat - 48)) 0)
  else
    none

/-- Modelled from the spec: the JavaScript unary-plus coercion (`+s`) applied
by the verifier to the decrypted identifier string.  The empty string
coerces to `0`, an optionally signed run of decimal digits coerces to the
corresponding integer, and every other string coerces to `NaN`.  (Decimal
points, exponents and hexadecimal forms are not modelled; no claim of the
specification depends on them.) -/
def jsUnaryPlus (s : String) : JSNum :=
  match s.data with
  | [] => .num 0
  | '-' :: rest =>
    match parseNatDigits rest with
    | some n => .num (-(n : Int))
    | none => .nan
  | '+' :: rest =>
    match parseNatDigits rest with
    | some n => .num (n : Int)
    | none => .nan
  | l =>
    match parseNatDigits l with
    | some n => .num (n : Int)
    | none => .nan

/-- Modelled from the spec: the JavaScript `String(v)` conversion applied by
`createToken` to the identifier before encryption. -/
def jsValToString : JSVal → String
  | .num n => toString n
  | .str s => s
  | .undefinedV => "undefined"

/-! ### A length-prefixed list codec

The external cipher and the external signed-token format both need an
injective, machine-checkable string representation.  We use a unary
length-prefixed encoding of character lists; the decoders are exact left
inverses of the encoders, which is all the repository relies on. -/

/-- Unary encoding of a natural number: `n` ones followed by a colon. -/
def encNatU (n : Nat) : List Char :=
  List.replicate n '1' ++ [':']

/-- Decoder for `encNatU`: counts the leading ones, then expects a colon. -/
def decNatU (l : List Char) : Option (Nat × List Char) :=
  match l.dropWhile (fun c => c == '1') with
  | ':' :: r => some ((l.takeWhile (fun c => c == '1')).length, r)
  | _ => none

/-- Length-prefixed encoding of a character list. -/
def encStrL (l : List Char) : List Char :=
  encNatU l.length ++ l

/-- Decoder for `encStrL`. -/
def decStrL (l : List Char) : Option (List Char × List Char) :=
  match decNatU l with
  | some (n, r) => if n ≤ r.length then some (r.take n, r.drop n) else none
  | none => none

/-- Tagged encoding of an optional character list. -/
def encOptL : Option (List Char) → List Char
  | none => ['n']
  | some l => 'j' :: encStrL l

/-- Decoder for `encOptL`. -/
def decOptL (l : List Char) : Option (Option (List Char) × List Char) :=
  match l with
  | 'n' :: r => some (none, r)
  | 'j' :: r => (decStrL r).map (fun x => (some x.1, x.2))
  | _ => none

theorem takeWhile_ones (n : Nat) (r : List Char) :
    (List.replicate n '1' ++ ':' :: r).takeWhile (fun c => c == '1')
      = List.replicate n '1' := by
  induction n with
  | zero => simp
  | succ k ih => simp [List.replicate, ih]

theorem dropWhile_ones (n : Nat) (r : List Char) :
    (List.replicate n '1' ++ ':' :: r).dropWhile (fun c => c == '1')
      = ':' :: r := by
  induction n with
  | zero => simp
  | succ k ih => simp [List.replicate, ih]

theorem decNatU_enc (n : Nat) (r : List Char) :
    decNatU (encNatU n ++ r) = some (n, r) := by
  simp [decNatU, encNatU, takeWhile_ones, dropWhile_ones]

theorem decStrL_enc (s r : List Char) :
    decStrL (encStrL s ++ r) = some (s, r) := by
  have h : encStrL s ++ r = encNatU s.length ++ (s ++ r) := by
    simp [encStrL]
  rw [decStrL, h, decNatU_enc]
  simp [List.take_left, List.drop_left]

theorem decOptL_enc (o : Option (List Char)) (r : List Char) :
    decOptL (encOptL o ++ r) = some (o, r) := by
  cases o with
  | none => simp [encOptL, decOptL]
  | some l => simp [encOptL, decOptL, decStrL_enc]

/-! ### The symmetric claim cipher -/

/-- Modelled from the spec: the symmetric claim cipher (`cryptr` /
`@gc-sistemas/encrypt`), an external dependency whose implementation is not
in the repository.  Per the specification it is a deterministic, reversible
keyed transform of one scalar string: same `(secret, plaintext)` pair always
yields byte-identical ciphertext, and decryption with the same secret
recovers the plaintext exactly.  We realise the contract with an injective
keyed encoding; the ciphertext embeds a length-tagged copy of the secret so
that decryption under a different secret fails. -/
def cryptrEncrypt (secret plaintext : String) : String :=
  ⟨encStrL secret.data ++ plaintext.data⟩

/-- Modelled from the spec: the cipher's inverse; `none` models the
exception `cryptr` throws when the ciphertext was not produced under the
same secret. -/
def cryptrDecrypt (secret c : String) : Option String :=
  if (encStrL secret.data).isPrefixOf c.data then
    some ⟨c.data.drop (encStrL secret.data).length⟩
  else
    none

/-- Modelled from the spec: entry point of the cipher as a hypothetical
randomized scheme would see it — `entropy` is the per-call randomness a salted
AEAD construction would consume.  The specification states the cipher uses no
per-call random salt, so the entropy argument is not consumed. -/
def cryptrEncryptAt (_entropy : Nat) (secret plaintext : String) : String :=
  cryptrEncrypt secret plaintext

theorem cryptrDecrypt_encrypt (secret p : String) :
    cryptrDecrypt secret (cryptrEncrypt secret p) = some p := by
  have hpre : (encStrL secret.data).isPrefixOf
      (encStrL secret.data ++ p.data) = true := by
    rw [ List.isPrefixOf_iff_prefix]
    exact List.prefix_append _ _
  simp [cryptrDecrypt, cryptrEncrypt, hpre, List.drop_left]

theorem cryptrEncrypt_ne_empty (secret p : String) :
    cryptrEncrypt secret p ≠ "" := by
  intro h
  have hd : (cryptrEncrypt secret p).data = ([] : List Char) := by
    rw [h]
  simp [cryptrEncrypt, encStrL, encNatU] at hd

/-! ### The signed-token (`jsonwebtoken`) model -/

/-- The claims map a signed token carries: exactly the optional `user_id`
and `client_id` fields the repository ever places in a payload, each holding
a ciphertext string. -/
structure JwtClaims where
  user_id : Option String := none
  client_id : Option String := none
deriving DecidableEq

/-- Modelled from the spec: the full content of a signed compact token —
the claims map, the private key material that signed it, the algorithm tag,
and the issued-at / expiration timestamps (epoch seconds) added by the
signing step. -/
structure SignedJwt where
  user_id : Option String
  client_id : Option String
  key : String
  alg : String
  iat : Nat
  exp : Nat
deriving DecidableEq

/-- Modelled from the spec: serialisation of a signed token to its opaque
wire string (standing in for the three-segment base64url format; every claim
treats the token string as opaque apart from round-tripping). -/
def encodeJwt (t : SignedJwt) : String :=
  ⟨encOptL (t.user_id.map String.data) ++
   encOptL (t.client_id.map String.data) ++
   encStrL t.key.data ++
   encStrL t.alg.data ++
   encNatU t.iat ++
   encNatU t.exp⟩

/-- Modelled from the spec: parser of the opaque wire string; `none` models
a structurally malformed token. -/
def decodeJwt (s : String) : Option SignedJwt :=
  match decOptL s.data with
  | none => none
  | some (u, r1) =>
    match decOptL r1 with
    | none => none
    | some (c, r2) =>
      match decStrL r2 with
      | none => none
      | some (k, r3) =>
        match decStrL r3 with
        | none => none
        | some (a, r4) =>
          match decNatU r4 with
          | none => none
          | some (i, r5) =>
            match decNatU r5 with
            | none => none
            | some (e, r6) =>
              if r6 = [] then
                some ⟨u.map (fun l => String.mk l), c.map (fun l => String.mk l),
                      ⟨k⟩, ⟨a⟩, i, e⟩
              else none

/-- Modelled from the spec: the public key paired with a given private key;
signature verification succeeds exactly when the verifying public key is the
pair of the signing private key (spec section 3, Token invariant). -/
def pairedPublicKey (privateKey : String) : String :=
  "public:" ++ privateKey

/-- The distinct failure modes of `jwt.verify`. -/
inductive JwtError where
  | malformed
  | badSignature
  | expired
deriving DecidableEq

/-- Modelled from the spec: `jwt.sign(payload, privateKey, {algorithm,
expiresIn})` called at epoch second `now` — embeds the claims map, records
the signing key and algorithm, and adds `iat = now` and
`exp = now + expiresInSecs`. -/
def jwtSign (payload : JwtClaims) (privateKey alg : String)
    (expiresInSecs now : Nat) : String :=
  encodeJwt ⟨payload.user_id, payload.client_id, privateKey, alg,
             now, now + expiresInSecs⟩

/-- Modelled from the spec: `jwt.verify(token, publicKey)` at epoch second
`now` — fails on a malformed token, on a signature not produced by the
private key paired with `publicKey`, or on an expired token
(`exp ≤ now`); on success returns the embedded claims map. -/
def jwtVerify (token publicKey : String) (now : Nat) :
    Except JwtError JwtClaims :=
  match decodeJwt token with
  | none => .error .malformed
  | some t =>
    if pairedPublicKey t.key ≠ publicKey then .error .badSignature
    else if t.exp ≤ now then .error .expired
    else .ok { user_id := t.user_id, client_id := t.client_id }

theorem decodeJwt_encodeJwt (t : SignedJwt) :
    decodeJwt (encodeJwt t) = some t := by
  obtain ⟨u, c, k, a, i, e⟩ := t
  have h1 : (encodeJwt ⟨u, c, k, a, i, e⟩).data =
      encOptL (u.map String.data) ++
      (encOptL (c.map String.data) ++
      (encStrL k.data ++
      (encStrL a.data ++
      (encNatU i ++
      (encNatU e ++ []))))) := by
    simp [encodeJwt, List.append_assoc]
  rw [decodeJwt, h1]
  simp only [decOptL_enc, decStrL_enc, decNatU_enc]
  cases u <;> cases c <;> simp

theorem jwtVerify_jwtSign (payload : JwtClaims) (privateKey alg : String)
    (secs nowSign nowVerify : Nat) (hfresh : nowVerify < nowSign + secs) :
    jwtVerify (jwtSign payload privateKey alg secs nowSign)
      (pairedPublicKey privateKey) nowVerify = .ok payload := by
  rw [jwtVerify, jwtSign, decodeJwt_encodeJwt]
  simp [Nat.not_le_of_lt hfresh]

/-! ### Process environment and token issuer (`Payload`, helpers/payload.ts) -/

/-- The slice of `process.env` the subsystem reads: `MODE`, `PRIVATE_KEY`
(path to the signing key) and `CRYPTR_KEY` (the shared cipher secret);
`none` models an unset variable. -/
structure Env where
  mode : Option String
  privateKeyPath : Option String
  cryptrKey : Option String
deriving DecidableEq

/-- The discriminating `type_token` argument of `createToken`. -/
inductive TokenType where
  | user
  | client
deriving DecidableEq

/-- The `data` argument of `createToken`: a JavaScript object that may or
may not carry `user_id` / `client_id` properties (`none` models an absent
property, `some .undefinedV` a property explicitly set to `undefined`). -/
structure PayloadData where
  user_id : Option JSVal := none
  client_id : Option JSVal := none
deriving DecidableEq

/-- Result record of `Payload.validatePayload`. -/
structure ValidationResult where
  ok : Bool
  error : Option String := none
deriving DecidableEq

/-- Result record of `Payload.createToken`
(`{ok: boolean, token?: string, error?: string}`). -/
structure TokenResult where
  ok : Bool
  token : Option String := none
  error : Option String := none
deriving DecidableEq

/-- `createToken` together with its observable side effects: the structured
result, the console log lines `(timestamp, message)` written by
`handleError`, and the errors forwarded to `Sentry.captureException`. -/
structure IssueOutcome where
  result : TokenResult
  logs : List (String × String) := []
  reported : List String := []
deriving DecidableEq

/-- Fault injection for the two external libraries `createToken` calls after
key resolution: a cipher-library failure and a signing-library failure. -/
structure Faults where
  cipher : Bool := false
  sign : Bool := false
deriving DecidableEq

/-- Message of the error `Payload.getPrivateKey` throws when the key file
cannot be read. -/
def pkErrMsg : String := "No se pudo leer la clave privada."

/-- Stand-in for the raw filesystem error `fs.readFileSync` throws. -/
def fsErrStr : String := "ENOENT: no such file or directory"

/-- `Payload.validatePayload(data, type_token)`: for a user token the
`user_id` property must exist, not be `undefined` and not be the empty
string; symmetrically for a client token and `client_id`. -/
def Payload.validatePayload (data : PayloadData) (type_token : TokenType) :
    ValidationResult :=
  match type_token with
  | .user =>
    if data.user_id = none ∨ data.user_id = some .undefinedV ∨
        data.user_id = some (.str "") then
      { ok := false, error := some "Falta o es inválido el campo obligatorio: user_id" }
    else
      { ok := true }
  | .client =>
    if data.client_id = none ∨ data.client_id = some .undefinedV ∨
        data.client_id = some (.str "") then
      { ok := false, error := some "Falta o es inválido el campo obligatorio: client_id" }
    else
      { ok := true }

/-- The file-read step of `Payload.getPrivateKey`: when `MODE !== 'dev'`
the path comes from `PRIVATE_KEY` (reading an unset path throws, modelled by
`none`), otherwise the fixed repo-relative path is used; `fs` maps a path to
the file content, or `none` when `readFileSync` throws. -/
def privateKeyRead (env : Env) (fs : String → Option String) : Option String :=
  match (if env.mode ≠ some "dev" then env.privateKeyPath
         else some "./src/keys/private.pem") with
  | none => none
  | some p => fs p

/-- Modelled from the spec: the `new Cryptr(secret)` constructor of the
external cipher library, which throws unless the secret is a non-empty
string. -/
def cryptrCtor (secret : Option String) : Except String Unit :=
  match secret with
  | none => .error "cryptr: secret must be a non-0-length string"
  | some s =>
    if s = "" then .error "cryptr: secret must be a non-0-length string"
    else .ok ()

/-- The cipher's `encrypt` as called by `createToken`, with the injected
cipher-library fault. -/
def cryptrEncryptX (faults : Faults) (secret plaintext : String) :
    Except String String :=
  if faults.cipher then .error "cryptr: encryption failure"
  else .ok (cryptrEncrypt secret plaintext)

/-- `jwt.sign` as called by `createToken`, with the injected signing-library
fault. -/
def jwtSignX (faults : Faults) (payload : JwtClaims) (privateKey alg : String)
    (expiresInSecs now : Nat) : Except String String :=
  if faults.sign then .error "jsonwebtoken: signing failure"
  else .ok (jwtSign payload privateKey alg expiresInSecs now)

/-- Modelled from the spec: the `jsonwebtoken` duration-string parser that
turns the `expiresIn` option into seconds.  Only the shapes the repository
uses are modelled: a digit run with an `h`/`m`/`s`/`d` unit suffix, or a
bare digit run taken as seconds; anything else yields `0`. -/
def parseExpiresIn (s : String) : Nat :=
  match s.data.getLast? with
  | some 'h' => 3600 * (parseNatDigits s.data.dropLast).getD 0
  | some 'm' => 60 * (parseNatDigits s.data.dropLast).getD 0
  | some 's' => (parseNatDigits s.data.dropLast).getD 0
  | some 'd' => 86400 * (parseNatDigits s.data.dropLast).getD 0
  | _ => (parseNatDigits s.data).getD 0

/-- The identifier value `createToken` encrypts: `data.user_id` for a user
token, `data.client_id` for a client token (validation has ruled out the
absent/undefined cases by the time it is read). -/
def selectIdVal (data : PayloadData) : TokenType → JSVal
  | .user => data.user_id.getD .undefinedV
  | .client => data.client_id.getD .undefinedV

/-- The payload map `createToken` signs: exactly one of `user_id` /
`client_id` set to the ciphertext, chosen by the token type. -/
def buildPayload (cipherText : String) : TokenType → JwtClaims
  | .user => { user_id := some cipherText }
  | .client => { client_id := some cipherText }

/-- `Payload.createToken(data, type_token, expiresIn='9h', algorithm='RS256')`.

Direct translation of the source: everything runs inside one `try`;
validation failures return early with the validation error; the private key
is read (a read failure is logged and reported by `getPrivateKey`, which
then throws its own error, caught and logged and reported again at the top
level); the cipher is constructed from `CRYPTR_KEY` and applied to
`String(id)`; the payload carries exactly one of `user_id` / `client_id`
set to the ciphertext; `jwt.sign` produces the token.  Every caught
exception is passed to `handleError` (Sentry + timestamped console log) and
converted to `{ok: false, error: e.message}`.  `nowStr` is the formatted
timestamp `handleError` would print; `nowEpoch` the epoch second at which
`jwt.sign` runs. -/
def Payload.createToken (env : Env) (fs : String → Option String)
    (faults : Faults) (nowStr : String) (nowEpoch : Nat)
    (data : PayloadData) (type_token : TokenType)
    (expiresIn : String := "9h") (algorithm : String := "RS256") :
    IssueOutcome :=
  let validation := Payload.validatePayload data type_token
  if validation.ok = false then
    { result := { ok := false, error := validation.error } }
  else
    match privateKeyRead env fs with
    | none =>
      { result := { ok := false, error := some pkErrMsg },
        logs := [(nowStr, fsErrStr), (nowStr, pkErrMsg)],
        reported := [fsErrStr, pkErrMsg] }
    | some private_key =>
      match cryptrCtor env.cryptrKey with
      | .error e =>
        { result := { ok := false, error := some e },
          logs := [(nowStr, e)], reported := [e] }
      | .ok _ =>
        match cryptrEncryptX faults (env.cryptrKey.getD "")
            (jsValToString (selectIdVal data type_token)) with
        | .error e =>
          { result := { ok := false, error := some e },
            logs := [(nowStr, e)], reported := [e] }
        | .ok cipherText =>
          match jwtSignX faults (buildPayload cipherText type_token) private_key algorithm
              (parseExpiresIn expiresIn) nowEpoch with
          | .error e =>
            { result := { ok := false, error := some e },
              logs := [(nowStr, e)], reported := [e] }
          | .ok token =>
            { result := { ok := true, token := some token } }

/-! ### Verification middleware (`CheckHeaders`, middlewares/headers.ts) -/

/-- The inbound request as the middleware sees it: the `Authorization`
header, the client-supplied JSON body, and the `userId` slot the
`AuthenticatedRequest` interface adds for the decrypted identifier. -/
structure Req where
  authorization : Option String
  body : List (String × String)
  userId : Option JSNum := none
deriving DecidableEq

/-- The JSON error body the middleware writes:
`{ok: false, errors: [{message: ...}]}` (one message per list entry). -/
structure ErrBody where
  ok : Bool
  errors : List String
deriving DecidableEq

/-- Outcome of one middleware run: either a response was written
(short-circuiting the pipeline) or `next()` was called with the possibly
mutated request. -/
inductive MWResult where
  | respond (status : Nat) (body : ErrBody)
  | next (req : Req)
deriving DecidableEq

/-- Status codes used by the middleware, from `enums/jsonResponse.ts`. -/
def JsonResponse.UNAUTHORIZED : Nat := 401

/-- 403 from `enums/jsonResponse.ts`. -/
def JsonResponse.FORBIDDEN : Nat := 403

/-- 500 from `enums/jsonResponse.ts`. -/
def JsonResponse.INTERNAL_SERVER_ERROR : Nat := 500

/-- The `"Bearer "` prefix recognised by the middleware. -/
def bearerMark : String := "Bearer "

/-- Line 208 of the middleware:
`authHeader.startsWith('Bearer ') ? authHeader.slice(7) : authHeader` —
strip exactly the case-sensitive seven-character prefix, otherwise use the
whole header value as the credential. -/
def stripBearer (h : String) : String :=
  if bearerMark.data.isPrefixOf h.data then ⟨h.data.drop 7⟩ else h

/-- `CheckHeaders.validateJWT(req, res, next)`.

Direct translation of the source: reject with 401 when the header is absent
or empty (JavaScript falsiness of `authHeader`); strip an optional
`"Bearer "` prefix; reject with 500 when `CRYPTR_KEY` is unset or empty;
verify the token signature and expiry (`jwt.verify` with the cached public
key) — any throw is caught and answered with the generic 403; reject with a
403 when the verified payload has no truthy `user_id`; decrypt the claim
(a `cryptr.decrypt` throw lands in the same catch block, hence the same
generic 403); on success coerce the plaintext with unary plus, store it in
the request's `userId` slot and call `next()`. -/
def CheckHeaders.validateJWT (publicKey : String) (env : Env) (now : Nat)
    (req : Req) : MWResult :=
  match req.authorization with
  | none =>
    .respond JsonResponse.UNAUTHORIZED
      ⟨false, ["No se encontró el token de autenticación en la cabecera."]⟩
  | some h =>
    if h = "" then
      .respond JsonResponse.UNAUTHORIZED
        ⟨false, ["No se encontró el token de autenticación en la cabecera."]⟩
    else
      match env.cryptrKey with
      | none =>
        .respond JsonResponse.INTERNAL_SERVER_ERROR
          ⟨false, ["Configuración de servidor incompleta."]⟩
      | some k =>
        if k = "" then
          .respond JsonResponse.INTERNAL_SERVER_ERROR
            ⟨false, ["Configuración de servidor incompleta."]⟩
        else
          match jwtVerify (stripBearer h) publicKey now with
          | .error _ =>
            .respond JsonResponse.FORBIDDEN
              ⟨false, ["Token inválido o expirado."]⟩
          | .ok decoded =>
            match decoded.user_id with
            | none =>
              .respond JsonResponse.FORBIDDEN
                ⟨false, ["El token no contiene el parámetro general del usuario."]⟩
            | some c =>
              if c = "" then
                .respond JsonResponse.FORBIDDEN
                  ⟨false, ["El token no contiene el parámetro general del usuario."]⟩
              else
                match cryptrDecrypt k c with
                | none =>
                  .respond JsonResponse.FORBIDDEN
                    ⟨false, ["Token inválido o expirado."]⟩
                | some user_id =>
                  .next { req with userId := some (jsUnaryPlus user_id) }

/-! ### Helper lemmas -/

theorem string_data_append (s t : String) : (s ++ t).data = s.data ++ t.data := by
  cases s
  cases t
  rfl

theorem string_append_ne_empty (s t : String) (hs : s.data ≠ []) : s ++ t ≠ "" := by
  intro h
  have hd : (s ++ t).data = ([] : List Char) := by rw [h]
  rw [string_data_append] at hd
  exact hs (List.append_eq_nil.mp hd).1

theorem stripBearer_of_bearer (rest : String) :
    stripBearer ("Bearer " ++ rest) = rest := by
  have hdat : ("Bearer " ++ rest).data = bearerMark.data ++ rest.data :=
    string_data_append _ _
  have hpre : bearerMark.data.isPrefixOf ("Bearer " ++ rest).data = true := by
    rw [hdat, List.isPrefixOf_iff_prefix]
    exact List.prefix_append _ _
  have hlen : bearerMark.data.length = 7 := by decide
  rw [stripBearer, if_pos hpre, hdat, ← hlen, List.drop_left]

theorem stripBearer_of_not_bearer (h : String)
    (hnp : bearerMark.data.isPrefixOf h.data = false) :
    stripBearer h = h := by
  simp [stripBearer, hnp]

theorem validatePayload_false_error (data : PayloadData) (tt : TokenType)
    (hok : (Payload.validatePayload data tt).ok = false) :
    ∃ m, (Payload.validatePayload data tt).error = some m := by
  cases tt
  · by_cases hc : data.user_id = none ∨ data.user_id = some JSVal.undefinedV ∨
        data.user_id = some (JSVal.str "")
    · exact ⟨"Falta o es inválido el campo obligatorio: user_id",
        by simp [Payload.validatePayload, hc]⟩
    · simp [Payload.validatePayload, hc] at hok
  · by_cases hc : data.client_id = none ∨ data.client_id = some JSVal.undefinedV ∨
        data.client_id = some (JSVal.str "")
    · exact ⟨"Falta o es inválido el campo obligatorio: client_id",
        by simp [Payload.validatePayload, hc]⟩
    · simp [Payload.validatePayload, hc] at hok

/-! ### The claims -/

/-- C5: claim encryption is deterministic — for a fixed `(secret, plaintext)`
pair, two calls of the cipher's encrypt (at arbitrary per-call entropy)
produce byte-identical ciphertext strings; there is no per-call random salt
or nonce. -/
theorem claim_C5 (e1 e2 : Nat) (secret plaintext : String) :
    cryptrEncryptAt e1 secret plaintext = cryptrEncryptAt e2 secret plaintext := rfl

/-- C6: a request carrying no authorization header is rejected with status
401 and the JSON body `{ok: false, errors: [{message: ...}]}`, for every
environment, key, clock and body — in particular before any signature or
decryption work can depend on them. -/
theorem claim_C6 (publicKey : String) (env : Env) (now : Nat)
    (body : List (String × String)) (uid : Option JSNum) :
    CheckHeaders.validateJWT publicKey env now ⟨none, body, uid⟩ =
      .respond 401
        ⟨false, ["No se encontró el token de autenticación en la cabecera."]⟩ := rfl

/-- C8: with the shared cipher secret unset (or empty, which JavaScript
treats the same), any request with a truthy authorization header is answered
with status 500 — for every public key, clock and header content, i.e. after
token extraction but before signature verification can matter — while a
request with no header still gets the 401, showing the precheck sits after
extraction. -/
theorem claim_C8 (publicKey : String) (now : Nat) (mode privPath : Option String)
    (body : List (String × String)) (uid : Option JSNum) (h : String)
    (hh : h ≠ "") :
    (CheckHeaders.validateJWT publicKey ⟨mode, privPath, none⟩ now
        ⟨some h, body, uid⟩ =
      .respond 500 ⟨false, ["Configuración de servidor incompleta."]⟩)
    ∧ (CheckHeaders.validateJWT publicKey ⟨mode, privPath, some ""⟩ now
        ⟨some h, body, uid⟩ =
      .respond 500 ⟨false, ["Configuración de servidor incompleta."]⟩)
    ∧ (CheckHeaders.validateJWT publicKey ⟨mode, privPath, none⟩ now
        ⟨none, body, uid⟩ =
      .respond 401
        ⟨false, ["No se encontró el token de autenticación en la cabecera."]⟩) := by
  refine ⟨?_, ?_, rfl⟩ <;>
    simp [CheckHeaders.validateJWT, JsonResponse.INTERNAL_SERVER_ERROR, hh]

/-- Witness for C8 at a concrete request. -/
theorem claim_C8_wit :
    CheckHeaders.validateJWT "P" ⟨none, none, none⟩ 0 ⟨some "tok", [], none⟩ =
      .respond 500 ⟨false, ["Configuración de servidor incompleta."]⟩ :=
  (claim_C8 "P" 0 none none [] none "tok" (by decide)).1

/-- C9: the verifier strips exactly the case-sensitive seven-character
prefix `"Bearer "`: when the header is `"Bearer "` followed by a remainder,
the credential is that remainder; for any header not carrying that exact
prefix (for example `"bearer "` or `"Bearer"` without the trailing space),
the whole header value is the credential. -/
theorem claim_C9 :
    (∀ rest : String, stripBearer ("Bearer " ++ rest) = rest)
    ∧ (∀ h : String, bearerMark.data.isPrefixOf h.data = false →
        stripBearer h = h) :=
  ⟨stripBearer_of_bearer, stripBearer_of_not_bearer⟩

/-- Witness for C9: the prefix is stripped, while a lowercase `"bearer "`
and a `"Bearer"` with no trailing space are taken whole. -/
theorem claim_C9_wit :
    stripBearer ("Bearer " ++ "abc.def.ghi") = "abc.def.ghi"
    ∧ stripBearer "bearer abc" = "bearer abc"
    ∧ stripBearer "Bearer" = "Bearer" :=
  ⟨claim_C9.1 "abc.def.ghi",
   claim_C9.2 "bearer abc" (by decide),
   claim_C9.2 "Bearer" (by decide)⟩

/-- C3: whenever the extracted token fails `jwt.verify` (bad signature,
expired, structurally malformed) or carries a truthy claim that fails to
decrypt, the verifier answers 403 with the same fixed generic message
`"Token inválido o expirado."` — the response is a constant, so the
underlying cryptographic error is never echoed, and a decryption failure is
indistinguishable from a signature failure. -/
theorem claim_C3 (publicKey : String) (mode privPath : Option String)
    (k : String) (now : Nat) (body : List (String × String))
    (uid : Option JSNum) (h : String)
    (hh : h ≠ "") (hk : k ≠ "")
    (hfail : (∃ e, jwtVerify (stripBearer h) publicKey now = .error e)
      ∨ (∃ p c, jwtVerify (stripBearer h) publicKey now = .ok p
          ∧ p.user_id = some c ∧ c ≠ "" ∧ cryptrDecrypt k c = none)) :
    CheckHeaders.validateJWT publicKey ⟨mode, privPath, some k⟩ now
        ⟨some h, body, uid⟩ =
      .respond 403 ⟨false, ["Token inválido o expirado."]⟩ := by
  rcases hfail with ⟨e, he⟩ | ⟨p, c, hp, hc, hcne, hd⟩
  · simp [CheckHeaders.validateJWT, JsonResponse.FORBIDDEN, hh, hk, he]
  · simp [CheckHeaders.validateJWT, JsonResponse.FORBIDDEN, hh, hk, hp, hc,
      hcne, hd]

/-- Witness for C3 at a malformed token. -/
theorem claim_C3_wit :
    CheckHeaders.validateJWT "P" ⟨none, none, some "k"⟩ 0
        ⟨some "garbage", [], none⟩ =
      .respond 403 ⟨false, ["Token inválido o expirado."]⟩ :=
  claim_C3 "P" none none "k" 0 [] none "garbage" (by decide) (by decide)
    (Or.inl ⟨.malformed, rfl⟩)

/-- C4: whatever the request and environment, if the verifier calls the next
handler then the resulting request is the incoming one with only the
dedicated `userId` slot filled with a number — the client-supplied body (and
everything else) is left unmodified, and the identifier is never merged into
the body. -/
theorem claim_C4 (publicKey : String) (env : Env) (now : Nat) (req req' : Req)
    (hnext : CheckHeaders.validateJWT publicKey env now req = .next req') :
    ∃ n : JSNum, req' = { req with userId := some n } := by
  unfold CheckHeaders.validateJWT at hnext
  repeat' split at hnext
  all_goals first
    | exact MWResult.noConfusion hnext
    | exact ⟨_, by injection hnext with h2; exact h2.symm⟩

/-- Concrete private-key material used by the witnesses. -/
def witPriv : String := "PRIV"

/-- Concrete shared cipher secret used by the witnesses. -/
def witSecret : String := "k"

/-- Ciphertext of the identifier string `"7"` under the witness secret. -/
def witCipher7 : String := cryptrEncrypt witSecret "7"

/-- A concrete signed token carrying `witCipher7` as its `user_id` claim,
issued at epoch second 0 and expiring at second 10. -/
def witTok7 : String := encodeJwt ⟨some witCipher7, none, witPriv, "RS256", 0, 10⟩

/-- Witness for C4: a concrete successful verification where the output
request is the input with only the `userId` slot set. -/
theorem claim_C4_wit :
    ∃ n : JSNum,
      (⟨some witTok7, [("a", "b")], some (JSNum.num 7)⟩ : Req) =
        { (⟨some witTok7, [("a", "b")], none⟩ : Req) with userId := some n } :=
  claim_C4 (pairedPublicKey witPriv) ⟨none, none, some witSecret⟩ 0
    ⟨some witTok7, [("a", "b")], none⟩
    ⟨some witTok7, [("a", "b")], some (JSNum.num 7)⟩ (by decide)

/-- C10: the verifier performs no numeric-format validation after
decryption — whenever the signature verifies and the truthy `user_id` claim
decrypts to a string whose numeric coercion is `NaN`, that `NaN` is attached
as the authenticated identifier and the request still proceeds to the next
handler instead of being rejected. -/
theorem claim_C10 (publicKey : String) (mode privPath : Option String)
    (k : String) (now : Nat) (body : List (String × String))
    (uid : Option JSNum) (h : String) (p : JwtClaims) (c s : String)
    (hh : h ≠ "") (hk : k ≠ "")
    (hver : jwtVerify (stripBearer h) publicKey now = .ok p)
    (hc : p.user_id = some c) (hcne : c ≠ "")
    (hdec : cryptrDecrypt k c = some s)
    (hnan : jsUnaryPlus s = .nan) :
    CheckHeaders.validateJWT publicKey ⟨mode, privPath, some k⟩ now
        ⟨some h, body, uid⟩ =
      .next ⟨some h, body, some JSNum.nan⟩ := by
  simp [CheckHeaders.validateJWT, hh, hk, hver, hc, hcne, hdec, hnan]

/-- Ciphertext of the non-numeric identifier string `"abc"` under the
witness secret. -/
def witCipherAbc : String := cryptrEncrypt witSecret "abc"

/-- A concrete signed token whose `user_id` claim decrypts to `"abc"`. -/
def witTokAbc : String :=
  encodeJwt ⟨some witCipherAbc, none, witPriv, "RS256", 0, 10⟩

/-- Witness for C10: the token decrypting to `"abc"` sails through with
`NaN` attached. -/
theorem claim_C10_wit :
    CheckHeaders.validateJWT (pairedPublicKey witPriv)
        ⟨none, none, some witSecret⟩ 0 ⟨some witTokAbc, [], none⟩ =
      .next ⟨some witTokAbc, [], some JSNum.nan⟩ :=
  claim_C10 (pairedPublicKey witPriv) none none witSecret 0 [] none
    witTokAbc ⟨some witCipherAbc, none⟩ witCipherAbc "abc"
    (by decide) (by decide) rfl rfl (by decide) (by decide) (by decide)

/-- C7: a `createToken` call of type `user` whose data lacks `user_id`, or
whose `user_id` is `undefined` or the empty string, returns
`{ok: false, error}` with the message naming `user_id` and produces no
token; symmetrically for type `client` and `client_id`. -/
theorem claim_C7 (env : Env) (fs : String → Option String) (faults : Faults)
    (nowStr : String) (nowEpoch : Nat) (expiresIn algorithm : String)
    (data : PayloadData) :
    ((data.user_id = none ∨ data.user_id = some .undefinedV ∨
        data.user_id = some (.str "")) →
      (Payload.createToken env fs faults nowStr nowEpoch data .user
          expiresIn algorithm).result =
        ⟨false, none, some "Falta o es inválido el campo obligatorio: user_id"⟩)
    ∧ ((data.client_id = none ∨ data.client_id = some .undefinedV ∨
        data.client_id = some (.str "")) →
      (Payload.createToken env fs faults nowStr nowEpoch data .client
          expiresIn algorithm).result =
        ⟨false, none, some "Falta o es inválido el campo obligatorio: client_id"⟩) := by
  constructor <;> intro hbad <;>
    simp [Payload.createToken, Payload.validatePayload, hbad]

/-- Witness for C7: empty-string ids of both kinds are rejected with the
field-naming message and no token. -/
theorem claim_C7_wit :
    ((Payload.createToken ⟨some "dev", none, some "k"⟩ (fun _ => some "PRIV")
        ⟨false, false⟩ "ts" 0 ⟨some (.str ""), some (.str "")⟩ .user
        "9h" "RS256").result =
      ⟨false, none, some "Falta o es inválido el campo obligatorio: user_id"⟩)
    ∧ ((Payload.createToken ⟨some "dev", none, some "k"⟩ (fun _ => some "PRIV")
        ⟨false, false⟩ "ts" 0 ⟨some (.str ""), some (.str "")⟩ .client
        "9h" "RS256").result =
      ⟨false, none, some "Falta o es inválido el campo obligatorio: client_id"⟩) :=
  ⟨(claim_C7 ⟨some "dev", none, some "k"⟩ (fun _ => some "PRIV") ⟨false, false⟩
      "ts" 0 "9h" "RS256" ⟨some (.str ""), some (.str "")⟩).1
        (Or.inr (Or.inr rfl)),
   (claim_C7 ⟨some "dev", none, some "k"⟩ (fun _ => some "PRIV") ⟨false, false⟩
      "ts" 0 "9h" "RS256" ⟨some (.str ""), some (.str "")⟩).2
        (Or.inr (Or.inr rfl))⟩

/-- C2: for every input and every internal fault (unreadable private key,
cipher-constructor or cipher failure, signing-library failure) `createToken`
returns a structured result — `{ok: true, token}` on success, otherwise
`{ok: false, error}` — and never lets a raw exception escape; moreover on
every post-validation failure path the caught error is forwarded to the
error-reporting collaborator and logged with the timestamp. -/
theorem claim_C2 (env : Env) (fs : String → Option String) (faults : Faults)
    (nowStr : String) (nowEpoch : Nat) (data : PayloadData) (tt : TokenType)
    (expiresIn algorithm : String) :
    (∃ t, (Payload.createToken env fs faults nowStr nowEpoch data tt
        expiresIn algorithm).result = ⟨true, some t, none⟩)
    ∨ (∃ m, (Payload.createToken env fs faults nowStr nowEpoch data tt
        expiresIn algorithm).result = ⟨false, none, some m⟩
        ∧ ((Payload.validatePayload data tt).ok = true →
            (Payload.createToken env fs faults nowStr nowEpoch data tt
              expiresIn algorithm).reported ≠ []
            ∧ ∃ e, (nowStr, e) ∈ (Payload.createToken env fs faults nowStr
                nowEpoch data tt expiresIn algorithm).logs)) := by
  by_cases hv : (Payload.validatePayload data tt).ok = false
  · obtain ⟨m, hm⟩ := validatePayload_false_error data tt hv
    refine Or.inr ⟨m, by simp [Payload.createToken, hv, hm], fun hok => ?_⟩
    rw [hok] at hv
    exact Bool.noConfusion hv
  · cases hpk : privateKeyRead env fs with
    | none =>
      refine Or.inr ⟨pkErrMsg, ?_, fun _ => ⟨?_, fsErrStr, ?_⟩⟩ <;>
        simp [Payload.createToken, hv, hpk]
    | some pk =>
      cases hct : cryptrCtor env.cryptrKey with
      | error e =>
        refine Or.inr ⟨e, ?_, fun _ => ⟨?_, e, ?_⟩⟩ <;>
          simp [Payload.createToken, hv, hpk, hct]
      | ok u =>
        cases henc : cryptrEncryptX faults (env.cryptrKey.getD "")
            (jsValToString (selectIdVal data tt)) with
        | error e =>
          refine Or.inr ⟨e, ?_, fun _ => ⟨?_, e, ?_⟩⟩ <;>
            simp [Payload.createToken, hv, hpk, hct, henc]
        | ok cipherText =>
          cases hsg : jwtSignX faults (buildPayload cipherText tt) pk algorithm
              (parseExpiresIn expiresIn) nowEpoch with
          | error e =>
            refine Or.inr ⟨e, ?_, fun _ => ⟨?_, e, ?_⟩⟩ <;>
              simp [Payload.createToken, hv, hpk, hct, henc, hsg]
          | ok t =>
            exact Or.inl ⟨t, by
              simp [Payload.createToken, hv, hpk, hct, henc, hsg]⟩

/-- Witness for C2 at a concrete faulty run: the private key is unreadable,
yet the call returns a structured error, reports it and logs it. -/
theorem claim_C2_wit :
    (∃ t, (Payload.createToken ⟨none, none, some "k"⟩ (fun _ => none)
        ⟨false, false⟩ "ts" 0 ⟨some (.num 1), none⟩ .user "9h"
        "RS256").result = ⟨true, some t, none⟩)
    ∨ (∃ m, (Payload.createToken ⟨none, none, some "k"⟩ (fun _ => none)
        ⟨false, false⟩ "ts" 0 ⟨some (.num 1), none⟩ .user "9h"
        "RS256").result = ⟨false, none, some m⟩
        ∧ ((Payload.validatePayload ⟨some (.num 1), none⟩ .user).ok = true →
            (Payload.createToken ⟨none, none, some "k"⟩ (fun _ => none)
              ⟨false, false⟩ "ts" 0 ⟨some (.num 1), none⟩ .user "9h"
              "RS256").reported ≠ []
            ∧ ∃ e, ("ts", e) ∈ (Payload.createToken ⟨none, none, some "k"⟩
                (fun _ => none) ⟨false, false⟩ "ts" 0 ⟨some (.num 1), none⟩
                .user "9h" "RS256").logs)) :=
  claim_C2 ⟨none, none, some "k"⟩ (fun _ => none) ⟨false, false⟩ "ts" 0
    ⟨some (.num 1), none⟩ .user "9h" "RS256"

/-- The filesystem the witnesses run against: only the dev private-key path
exists. -/
def witFs : String → Option String :=
  fun p => if p = "./src/keys/private.pem" then some witPriv else none

/-- C1: for every valid (non-empty) shared secret `s` and non-empty
plaintext identifier `p`, decrypting the ciphertext of `p` under `s` yields
`p` again; and end to end, a token issued by `createToken` for user id 42
under a working configuration passes the verifier, which decrypts the
embedded claim, attaches the numeric identifier 42 to the request's
authenticated context and proceeds to the next handler. -/
theorem claim_C1 :
    (∀ s p : String, s ≠ "" → p ≠ "" →
      cryptrDecrypt s (cryptrEncrypt s p) = some p)
    ∧ (∀ (env : Env) (fs : String → Option String) (k pk nowStr : String)
        (nowEpoch now2 : Nat) (body : List (String × String))
        (uid : Option JSNum),
        privateKeyRead env fs = some pk →
        env.cryptrKey = some k → k ≠ "" →
        now2 < nowEpoch + 32400 →
        ∃ t, (Payload.createToken env fs ⟨false, false⟩ nowStr nowEpoch
            ⟨some (.num 42), none⟩ .user "9h" "RS256").result =
          ⟨true, some t, none⟩
        ∧ CheckHeaders.validateJWT (pairedPublicKey pk) env now2
            ⟨some ("Bearer " ++ t), body, uid⟩ =
          .next ⟨some ("Bearer " ++ t), body, some (JSNum.num 42)⟩) := by
  constructor
  · exact fun s p _ _ => cryptrDecrypt_encrypt s p
  · intro env fs k pk nowStr nowEpoch now2 body uid hpk hkey hkne hfresh
    refine ⟨jwtSign ⟨some (cryptrEncrypt k "42"), none⟩ pk "RS256" 32400
      nowEpoch, ?_, ?_⟩
    · have hval : Payload.validatePayload ⟨some (.num 42), none⟩ .user =
          ⟨true, none⟩ := by decide
      have hfortytwo : jsValToString (selectIdVal ⟨some (.num 42), none⟩
          .user) = "42" := by decide
      have hexp : parseExpiresIn "9h" = 32400 := by decide
      simp [Payload.createToken, hval, hpk, hkey, hkne, cryptrCtor,
        cryptrEncryptX, jwtSignX, hfortytwo, hexp, buildPayload]
    · have hne : ("Bearer " ++ jwtSign ⟨some (cryptrEncrypt k "42"), none⟩
          pk "RS256" 32400 nowEpoch) ≠ "" :=
        string_append_ne_empty _ _ (by decide)
      have hstrip := stripBearer_of_bearer
        (jwtSign ⟨some (cryptrEncrypt k "42"), none⟩ pk "RS256" 32400 nowEpoch)
      have hver := jwtVerify_jwtSign ⟨some (cryptrEncrypt k "42"), none⟩
        pk "RS256" 32400 nowEpoch now2 hfresh
      have hcne := cryptrEncrypt_ne_empty k "42"
      have hdec := cryptrDecrypt_encrypt k "42"
      have hplus : jsUnaryPlus "42" = .num 42 := by decide
      simp [CheckHeaders.validateJWT, hkey, hne, hkne, hstrip, hver, hcne,
        hdec, hplus]

/-- Witness for C1 at the concrete witness configuration. -/
theorem claim_C1_wit :
    (cryptrDecrypt "k" (cryptrEncrypt "k" "42") = some "42")
    ∧ (∃ t, (Payload.createToken ⟨some "dev", none, some witSecret⟩ witFs
        ⟨false, false⟩ "ts" 0 ⟨some (.num 42), none⟩ .user "9h"
        "RS256").result = ⟨true, some t, none⟩
      ∧ CheckHeaders.validateJWT (pairedPublicKey witPriv)
          ⟨some "dev", none, some witSecret⟩ 0
          ⟨some ("Bearer " ++ t), [], none⟩ =
        .next ⟨some ("Bearer " ++ t), [], some (JSNum.num 42)⟩) :=
  ⟨claim_C1.1 "k" "42" (by decide) (by decide),
   claim_C1.2 ⟨some "dev", none, some witSecret⟩ witFs witSecret witPriv
     "ts" 0 0 [] none (by decide) rfl (by decide) (by decide)⟩
